import Mathlib

/-!
Verification of `src/components/babysitter.py` (the `emit_configuration`
stack-fragment builder of the cloudformer repository).

The builder is shallowly embedded: each troposphere resource constructed by
`emit_configuration` becomes a Lean structure holding exactly the fields the
source sets, and `emit_configuration` itself becomes a function from the
external configuration (the `config` module, injected as a record) to the
list of parameters and resources it appends to the shared template.
-/

namespace Cloudformer

/-- Model of Python `str.join`: `pyJoin sep xs` is `sep.join(xs)`. -/
def pyJoin (sep : String) : List String → String
  | [] => ""
  | [x] => x
  | x :: y :: xs => x ++ sep ++ pyJoin sep (y :: xs)

/-- Template-language values occurring in the source: string literals are kept
as plain `String` fields; `Ref`, `GetAtt`, `FindInMap` and `Base64` wrappers
become the corresponding constructors.  A `ref` carries the logical title of
the parameter or resource it points at. -/
inductive TVal where
  | ref (target : String)
  | getAtt (resource : String) (attr : String)
  | findInMap (mapName : String) (key : TVal) (index : Nat)
  | base64 (s : String)
  deriving Repr, DecidableEq

/-- A CloudFormation template parameter, as built by `template.add_parameter`.
`allowedValues` and `constraintDescription` are optional because the email
parameter omits them. -/
structure Param where
  title : String
  type : String
  default : String
  description : String
  allowedValues : Option (List String)
  constraintDescription : Option String
  deriving Repr, DecidableEq

/-- An `sns.Subscription` entry. -/
structure SnsSubscription where
  endpoint : TVal
  protocol : String
  deriving Repr, DecidableEq

/-- An `ec2.SecurityGroupRule`. -/
structure SecurityGroupRule where
  ipProtocol : String
  cidrIp : String
  fromPort : Nat
  toPort : Nat
  deriving Repr, DecidableEq

/-- A `cloudwatch.MetricDimension`. -/
structure MetricDimension where
  name : String
  value : TVal
  deriving Repr, DecidableEq

/-- An `iam.Policy` as built in the source: the policy document is the text
rendered by `cfn.load_template(templateFile, templateParams)` (the source then
parses it with `json.loads`; the document is represented here by its rendered
source text).  The template file name and the parameter dictionary passed to
the rendering are recorded. -/
structure IamPolicy where
  policyName : String
  templateFile : String
  templateParams : List (String × String)
  policyDocument : String
  deriving Repr, DecidableEq

/-- An `ec2.BlockDeviceMapping` with its EBS `DeleteOnTermination` flag. -/
structure BlockDeviceMapping where
  deviceName : String
  ebsDeleteOnTermination : Bool
  deriving Repr, DecidableEq

/-- An `autoscaling.NotificationConfiguration`. -/
structure NotificationConfiguration where
  topicARN : TVal
  notificationTypes : List String
  deriving Repr, DecidableEq

/-- The `sqs.Queue` resource (source lines 43-51). -/
structure QueueR where
  title : String
  visibilityTimeout : Nat
  messageRetentionPeriod : Nat
  maximumMessageSize : Nat
  queueName : String
  deriving Repr, DecidableEq

/-- The `sns.Topic` resource (source lines 53-66). -/
structure TopicR where
  title : String
  displayName : String
  topicName : String
  subscription : List SnsSubscription
  dependsOn : String
  deriving Repr, DecidableEq

/-- The `cloudwatch.Alarm` resource (source lines 68-89). -/
structure AlarmR where
  title : String
  alarmDescription : String
  metricNamespace : String
  metricName : String
  dimensions : List MetricDimension
  statistic : String
  period : String
  evaluationPeriods : String
  threshold : String
  comparisonOperator : String
  alarmActions : List TVal
  insufficientDataActions : List TVal
  dependsOn : String
  deriving Repr, DecidableEq

/-- The `iam.Role` resource (source lines 93-114). -/
structure RoleR where
  title : String
  assumeRolePolicyDocument : String
  path : String
  policies : List IamPolicy
  dependsOn : String
  deriving Repr, DecidableEq

/-- The `iam.InstanceProfile` resource (source lines 116-123). -/
structure InstanceProfileR where
  title : String
  path : String
  roles : List TVal
  dependsOn : String
  deriving Repr, DecidableEq

/-- The `ec2.SecurityGroup` resource (source lines 135-144). -/
structure SecurityGroupR where
  title : String
  groupDescription : String
  vpcId : TVal
  securityGroupIngress : List SecurityGroupRule
  dependsOn : String
  tagName : String
  deriving Repr, DecidableEq

/-- The `autoscaling.LaunchConfiguration` resource (source lines 146-166). -/
structure LaunchConfigurationR where
  title : String
  imageId : TVal
  instanceType : TVal
  iamInstanceProfile : TVal
  associatePublicIpAddress : Bool
  blockDeviceMappings : List BlockDeviceMapping
  keyName : TVal
  securityGroups : List TVal
  dependsOn : List String
  userData : TVal
  deriving Repr, DecidableEq

/-- The `autoscaling.AutoScalingGroup` resource (source lines 169-185). -/
structure AutoScalingGroupR where
  title : String
  availabilityZones : List String
  desiredCapacity : String
  launchConfigurationName : TVal
  minSize : String
  maxSize : String
  notificationConfiguration : NotificationConfiguration
  vpcZoneIdentifier : List TVal
  deriving Repr, DecidableEq

/-- A resource descriptor appended to the template accumulator: a tagged
record, one tag per resource kind the builder emits. -/
inductive Resource where
  | queue (q : QueueR)
  | topic (t : TopicR)
  | alarm (a : AlarmR)
  | role (r : RoleR)
  | instanceProfile (p : InstanceProfileR)
  | securityGroup (g : SecurityGroupR)
  | launchConfiguration (c : LaunchConfigurationR)
  | autoScalingGroup (g : AutoScalingGroupR)
  deriving Repr, DecidableEq

/-- The kind tag of a resource descriptor. -/
inductive ResourceKind where
  | queue | topic | alarm | role | instanceProfile
  | securityGroup | launchConfiguration | autoScalingGroup
  deriving Repr, DecidableEq

def Resource.kind : Resource → ResourceKind
  | .queue _ => .queue
  | .topic _ => .topic
  | .alarm _ => .alarm
  | .role _ => .role
  | .instanceProfile _ => .instanceProfile
  | .securityGroup _ => .securityGroup
  | .launchConfiguration _ => .launchConfiguration
  | .autoScalingGroup _ => .autoScalingGroup

/-- The logical title of a resource descriptor (the first positional argument
of each troposphere constructor in the source). -/
def Resource.title : Resource → String
  | .queue q => q.title
  | .topic t => t.title
  | .alarm a => a.title
  | .role r => r.title
  | .instanceProfile p => p.title
  | .securityGroup g => g.title
  | .launchConfiguration c => c.title
  | .autoScalingGroup g => g.title

/-- The physical name property a resource descriptor carries, when the source
sets one: the queue sets `QueueName` and the topic sets `TopicName`; no other
resource in the source sets any name property (no `RoleName`,
`AutoScalingGroupName`, `GroupName`, ...). -/
def Resource.physicalName : Resource → Option String
  | .queue q => some q.queueName
  | .topic t => some t.topicName
  | _ => none

/-- The explicit `DependsOn` list of a resource descriptor (empty when the
source passes no `DependsOn`). -/
def Resource.dependsOnList : Resource → List String
  | .queue _ => []
  | .topic t => [t.dependsOn]
  | .alarm a => [a.dependsOn]
  | .role r => [r.dependsOn]
  | .instanceProfile p => [p.dependsOn]
  | .securityGroup g => [g.dependsOn]
  | .launchConfiguration c => c.dependsOn
  | .autoScalingGroup _ => []

/-- Modelled from the spec: the `config` module (the Template Accumulator /
Naming Config collaborator) is not part of src/; its constants and helpers
used by `emit_configuration` are injected here as an immutable record — the
naming context (cloud name, environment name, region, CIDR default route,
private-subnet flag, key-pair name) together with the account/VPC metadata
and the two external capabilities `sanitize_id` (logical-ID sanitization)
and `load_template` (template-file rendering).  `region` is part of the
naming context per the spec although `emit_configuration` never reads it.
`vpcs` carries the logical titles of the VPC resources declared by the
config module; `asgAZs` is the result of `cfn.get_asg_azs()`,
`platformSubnets` the titles returned by
`cfn.get_vpc_subnets(cfn.vpcs[0], cfn.SubnetTypes.PLATFORM)`,
`usableInstances` the result of `cfn.usable_instances()`, and `amisEBS` the
integer value of `cfn.Amis.EBS`. -/
structure Config where
  CLOUDNAME : String
  CLOUDENV : String
  region : String
  DEFAULT_ROUTE : String
  USE_PRIVATE_SUBNETS : Bool
  ASSUME_ROLE_POLICY : String
  vpcs : List String
  keyname : String
  amisEBS : Nat
  usableInstances : List String
  asgAZs : List String
  platformSubnets : List String
  sanitize_id : String → String
  load_template : String → List (String × String) → String

/-- The troposphere constant `EC2_INSTANCE_TERMINATE`. -/
def EC2_INSTANCE_TERMINATE : String := "autoscaling:EC2_INSTANCE_TERMINATE"

/-- The fragment appended to the shared template accumulator: the parameters
and resources added by one builder run, in insertion order. -/
structure Template where
  parameters : List Param
  resources : List Resource
  deriving Repr, DecidableEq

/-- Shallow embedding of `emit_configuration` (source lines 21-185).  The
source mutates the global `template`; here the appended fragment is returned.
`cfn.vpcs[0]` raises in Python when `vpcs` is empty, so the build is modelled
as `Option`: `none` stands for that fatal failure, `some` for a completed
build.  The source also computes `babysitter_role_name` (line 92) and
`asg_name` (line 168) — both are bound below exactly as in the source and,
as in the source, never attached to any resource. -/
def emit_configuration (cfg : Config) : Option Template :=
  match cfg.vpcs with
  | [] => none
  | vpc0 :: _ =>
    let babysitter_instance_class : Param :=
      { title := "BabysitterInstanceType", type := "String",
        default := "t2.micro",
        description := "Chef babysitter instance type",
        allowedValues := some cfg.usableInstances,
        constraintDescription :=
          some "Instance size must be a valid instance type" }
    let babysitter_email_param : Param :=
      { title := "BabysitterAlarmEmail", type := "String",
        default := "wlee@leaf.me",
        description :=
          "Email address to notify if tehre are issues in the babysitter queue",
        allowedValues := none, constraintDescription := none }
    let queue_name :=
      pyJoin "_" ["chef-deregistration", cfg.CLOUDNAME, cfg.CLOUDENV]
    let queue : QueueR :=
      { title := cfg.sanitize_id queue_name,
        visibilityTimeout := 60,
        messageRetentionPeriod := 1209600,
        maximumMessageSize := 16384,
        queueName := queue_name }
    let alert_topic : TopicR :=
      { title := "BabysitterAlarmTopic",
        displayName := "Babysitter Alarm",
        topicName := queue_name,
        subscription :=
          [{ endpoint := TVal.ref babysitter_email_param.title,
             protocol := "email" }],
        dependsOn := queue.title }
    let queue_depth_alarm : AlarmR :=
      { title := "BabysitterQueueDepthAlarm",
        alarmDescription := "Alarm if the queue depth grows beyond 200 messages",
        metricNamespace := "AWS/SQS",
        metricName := "ApproximateNumberOfMessagesVisible",
        dimensions :=
          [{ name := "QueueName", value := TVal.getAtt queue.title "QueueName" }],
        statistic := "Sum",
        period := "300",
        evaluationPeriods := "1",
        threshold := "200",
        comparisonOperator := "GreaterThanThreshold",
        alarmActions := [TVal.ref alert_topic.title],
        insufficientDataActions := [TVal.ref alert_topic.title],
        dependsOn := alert_topic.title }
    let babysitter_role_name :=
      pyJoin "." ["babysitter", cfg.CLOUDNAME, cfg.CLOUDENV]
    let babysitter_iam_role : RoleR :=
      { title := "BabysitterIamRole",
        assumeRolePolicyDocument := cfg.ASSUME_ROLE_POLICY,
        path := "/",
        policies :=
          [{ policyName := "BabySitterPolicy",
             templateFile := "babysitter_policy.json.j2",
             templateParams :=
               [("env", cfg.CLOUDENV), ("cloud", cfg.CLOUDNAME),
                ("region", "us-east-1")],
             policyDocument :=
               cfg.load_template "babysitter_policy.json.j2"
                 [("env", cfg.CLOUDENV), ("cloud", cfg.CLOUDNAME),
                  ("region", "us-east-1")] },
           { policyName := "BabySitterDefaultPolicy",
             templateFile := "default_policy.json.j2",
             templateParams :=
               [("env", cfg.CLOUDENV), ("cloud", cfg.CLOUDNAME),
                ("region", "us-east-1")],
             policyDocument :=
               cfg.load_template "default_policy.json.j2"
                 [("env", cfg.CLOUDENV), ("cloud", cfg.CLOUDNAME),
                  ("region", "us-east-1")] }],
        dependsOn := vpc0 }
    let babysitter_instance_profile : InstanceProfileR :=
      { title := "BabysitterInstanceProfile",
        path := "/",
        roles := [TVal.ref babysitter_iam_role.title],
        dependsOn := babysitter_iam_role.title }
    let babysitter_user_data :=
      cfg.load_template "default-init.bash.j2"
        [("env", cfg.CLOUDENV), ("cloud", cfg.CLOUDNAME),
         ("deploy", "babysitter")]
    let ingress_rules : List SecurityGroupRule :=
      [22].map fun p =>
        { ipProtocol := "tcp", cidrIp := cfg.DEFAULT_ROUTE,
          fromPort := p, toPort := p }
    let security_group : SecurityGroupR :=
      { title := "BabysitterSecurityGroup",
        groupDescription := "Security Group for babysitter instances",
        vpcId := TVal.ref vpc0,
        securityGroupIngress := ingress_rules,
        dependsOn := vpc0,
        tagName := pyJoin "." ["babysitter-sg", cfg.CLOUDNAME, cfg.CLOUDENV] }
    let launch_cfg : LaunchConfigurationR :=
      { title := "BabysitterLaunchConfiguration",
        imageId :=
          TVal.findInMap "RegionMap" (TVal.ref "AWS::Region") cfg.amisEBS,
        instanceType := TVal.ref babysitter_instance_class.title,
        iamInstanceProfile := TVal.ref babysitter_instance_profile.title,
        associatePublicIpAddress := !cfg.USE_PRIVATE_SUBNETS,
        blockDeviceMappings :=
          [{ deviceName := "/dev/sda1", ebsDeleteOnTermination := true }],
        keyName := TVal.ref cfg.keyname,
        securityGroups := [TVal.ref security_group.title],
        dependsOn := [babysitter_instance_profile.title, security_group.title],
        userData := TVal.base64 babysitter_user_data }
    let asg_name := pyJoin "." ["babysitter", cfg.CLOUDNAME, cfg.CLOUDENV]
    let asg : AutoScalingGroupR :=
      { title := "BabysitterASG",
        availabilityZones := cfg.asgAZs,
        desiredCapacity := "1",
        launchConfigurationName := TVal.ref launch_cfg.title,
        minSize := "1",
        maxSize := "1",
        notificationConfiguration :=
          { topicARN := TVal.ref alert_topic.title,
            notificationTypes := [EC2_INSTANCE_TERMINATE] },
        vpcZoneIdentifier := cfg.platformSubnets.map TVal.ref }
    some
      { parameters := [babysitter_instance_class, babysitter_email_param],
        resources :=
          [Resource.queue queue,
           Resource.topic alert_topic,
           Resource.alarm queue_depth_alarm,
           Resource.role babysitter_iam_role,
           Resource.instanceProfile babysitter_instance_profile,
           Resource.securityGroup security_group,
           Resource.launchConfiguration launch_cfg,
           Resource.autoScalingGroup asg] }

/-- The resources a build appends, in order (empty when the build fails). -/
def emittedResources (cfg : Config) : List Resource :=
  match emit_configuration cfg with
  | some t => t.resources
  | none => []

/-- The region values passed to the IAM policy template renderings of the
build: for each policy of the role resource, the value bound to the key
`region` in the parameter dictionary handed to `cfn.load_template`. -/
def rolePolicyTemplateRegions (cfg : Config) : List (Option String) :=
  match (emittedResources cfg)[3]? with
  | some (Resource.role r) =>
      r.policies.map fun p => List.lookup "region" p.templateParams
  | _ => []

/-- Resolution of a `GetAtt(q, "QueueName")` template value against the
emitted resources: the `QueueName` attribute of a queue resource resolves to
its `QueueName` property. -/
def lookupQueueName (rs : List Resource) (logicalId : String) : Option String :=
  rs.findSome? fun r =>
    match r with
    | .queue q => if q.title = logicalId then some q.queueName else none
    | _ => none

def resolveTVal (rs : List Resource) : TVal → Option String
  | .getAtt res "QueueName" => lookupQueueName rs res
  | _ => none

theorem string_append_assoc (a b c : String) :
    (a ++ b) ++ c = a ++ (b ++ c) := by
  cases a with
  | mk da =>
    cases b with
    | mk db =>
      cases c with
      | mk dc => exact congrArg String.mk (List.append_assoc da db dc)

/-- Evaluation lemma: a completed build appends the two parameters and the
eight resources below, all fields expressed in the configuration's terms. -/
theorem emit_configuration_eq (cfg : Config) (v : String) (l : List String)
    (h : cfg.vpcs = v :: l) :
    emit_configuration cfg = some
      { parameters :=
          [{ title := "BabysitterInstanceType", type := "String",
             default := "t2.micro",
             description := "Chef babysitter instance type",
             allowedValues := some cfg.usableInstances,
             constraintDescription :=
               some "Instance size must be a valid instance type" },
           { title := "BabysitterAlarmEmail", type := "String",
             default := "wlee@leaf.me",
             description :=
               "Email address to notify if tehre are issues in the babysitter queue",
             allowedValues := none, constraintDescription := none }],
        resources :=
          [Resource.queue
            { title := cfg.sanitize_id
                (pyJoin "_" ["chef-deregistration", cfg.CLOUDNAME, cfg.CLOUDENV]),
              visibilityTimeout := 60,
              messageRetentionPeriod := 1209600,
              maximumMessageSize := 16384,
              queueName :=
                pyJoin "_" ["chef-deregistration", cfg.CLOUDNAME, cfg.CLOUDENV] },
           Resource.topic
            { title := "BabysitterAlarmTopic",
              displayName := "Babysitter Alarm",
              topicName :=
                pyJoin "_" ["chef-deregistration", cfg.CLOUDNAME, cfg.CLOUDENV],
              subscription :=
                [{ endpoint := TVal.ref "BabysitterAlarmEmail",
                   protocol := "email" }],
              dependsOn := cfg.sanitize_id
                (pyJoin "_" ["chef-deregistration", cfg.CLOUDNAME, cfg.CLOUDENV]) },
           Resource.alarm
            { title := "BabysitterQueueDepthAlarm",
              alarmDescription :=
                "Alarm if the queue depth grows beyond 200 messages",
              metricNamespace := "AWS/SQS",
              metricName := "ApproximateNumberOfMessagesVisible",
              dimensions :=
                [{ name := "QueueName",
                   value := TVal.getAtt
                     (cfg.sanitize_id
                       (pyJoin "_"
                         ["chef-deregistration", cfg.CLOUDNAME, cfg.CLOUDENV]))
                     "QueueName" }],
              statistic := "Sum",
              period := "300",
              evaluationPeriods := "1",
              threshold := "200",
              comparisonOperator := "GreaterThanThreshold",
              alarmActions := [TVal.ref "BabysitterAlarmTopic"],
              insufficientDataActions := [TVal.ref "BabysitterAlarmTopic"],
              dependsOn := "BabysitterAlarmTopic" },
           Resource.role
            { title := "BabysitterIamRole",
              assumeRolePolicyDocument := cfg.ASSUME_ROLE_POLICY,
              path := "/",
              policies :=
                [{ policyName := "BabySitterPolicy",
                   templateFile := "babysitter_policy.json.j2",
                   templateParams :=
                     [("env", cfg.CLOUDENV), ("cloud", cfg.CLOUDNAME),
                      ("region", "us-east-1")],
                   policyDocument :=
                     cfg.load_template "babysitter_policy.json.j2"
                       [("env", cfg.CLOUDENV), ("cloud", cfg.CLOUDNAME),
                        ("region", "us-east-1")] },
                 { policyName := "BabySitterDefaultPolicy",
                   templateFile := "default_policy.json.j2",
                   templateParams :=
                     [("env", cfg.CLOUDENV), ("cloud", cfg.CLOUDNAME),
                      ("region", "us-east-1")],
                   policyDocument :=
                     cfg.load_template "default_policy.json.j2"
                       [("env", cfg.CLOUDENV), ("cloud", cfg.CLOUDNAME),
                        ("region", "us-east-1")] }],
              dependsOn := v },
           Resource.instanceProfile
            { title := "BabysitterInstanceProfile",
              path := "/",
              roles := [TVal.ref "BabysitterIamRole"],
              dependsOn := "BabysitterIamRole" },
           Resource.securityGroup
            { title := "BabysitterSecurityGroup",
              groupDescription := "Security Group for babysitter instances",
              vpcId := TVal.ref v,
              securityGroupIngress :=
                [{ ipProtocol := "tcp", cidrIp := cfg.DEFAULT_ROUTE,
                   fromPort := 22, toPort := 22 }],
              dependsOn := v,
              tagName :=
                pyJoin "." ["babysitter-sg", cfg.CLOUDNAME, cfg.CLOUDENV] },
           Resource.launchConfiguration
            { title := "BabysitterLaunchConfiguration",
              imageId :=
                TVal.findInMap "RegionMap" (TVal.ref "AWS::Region") cfg.amisEBS,
              instanceType := TVal.ref "BabysitterInstanceType",
              iamInstanceProfile := TVal.ref "BabysitterInstanceProfile",
              associatePublicIpAddress := !cfg.USE_PRIVATE_SUBNETS,
              blockDeviceMappings :=
                [{ deviceName := "/dev/sda1", ebsDeleteOnTermination := true }],
              keyName := TVal.ref cfg.keyname,
              securityGroups := [TVal.ref "BabysitterSecurityGroup"],
              dependsOn :=
                ["BabysitterInstanceProfile", "BabysitterSecurityGroup"],
              userData := TVal.base64
                (cfg.load_template "default-init.bash.j2"
                  [("env", cfg.CLOUDENV), ("cloud", cfg.CLOUDNAME),
                   ("deploy", "babysitter")]) },
           Resource.autoScalingGroup
            { title := "BabysitterASG",
              availabilityZones := cfg.asgAZs,
              desiredCapacity := "1",
              launchConfigurationName := TVal.ref "BabysitterLaunchConfiguration",
              minSize := "1",
              maxSize := "1",
              notificationConfiguration :=
                { topicARN := TVal.ref "BabysitterAlarmTopic",
                  notificationTypes := [EC2_INSTANCE_TERMINATE] },
              vpcZoneIdentifier := cfg.platformSubnets.map TVal.ref }] } := by
  unfold emit_configuration
  rw [h]
  rfl

/-- A concrete naming/environment configuration used to instantiate the
universally quantified theorems below. -/
def sampleConfig : Config :=
  { CLOUDNAME := "acme", CLOUDENV := "prod", region := "us-west-2",
    DEFAULT_ROUTE := "10.0.0.0/8", USE_PRIVATE_SUBNETS := false,
    ASSUME_ROLE_POLICY := "assume-role-policy-document",
    vpcs := ["TestVpc"], keyname := "TestKeyPair", amisEBS := 1,
    usableInstances := ["t2.micro", "t2.small"],
    asgAZs := ["us-west-2a", "us-west-2b"],
    platformSubnets := ["PlatformSubnetA"],
    sanitize_id := fun s => (s.replace "-" "").replace "_" "",
    load_template := fun file params =>
      pyJoin ";" (file :: params.map fun kv => kv.1 ++ "=" ++ kv.2) }

/-- A second concrete configuration, differing from `sampleConfig` in every
field, used for the two-run (noninterference-style) claim about the region
argument. -/
def sampleConfig2 : Config :=
  { CLOUDNAME := "globex", CLOUDENV := "dev", region := "eu-west-1",
    DEFAULT_ROUTE := "192.168.0.0/16", USE_PRIVATE_SUBNETS := true,
    ASSUME_ROLE_POLICY := "other-policy-document",
    vpcs := ["OtherVpc", "SecondVpc"], keyname := "OtherKey", amisEBS := 0,
    usableInstances := [], asgAZs := ["eu-west-1a"],
    platformSubnets := [],
    sanitize_id := fun s => s ++ "Id",
    load_template := fun _ _ => "rendered" }

/-- Evaluation of the queue-name interpolation: joining with `_` yields the
`chef-deregistration_{cloud}_{env}` shape. -/
theorem chef_queue_name (c e : String) :
    pyJoin "_" ["chef-deregistration", c, e] =
      "chef-deregistration_" ++ c ++ "_" ++ e := by
  have h1 : pyJoin "_" ["chef-deregistration", c, e]
      = "chef-deregistration" ++ "_" ++ ((c ++ "_") ++ e) := rfl
  rw [h1,
    show ("chef-deregistration_" : String) = "chef-deregistration" ++ "_" from rfl]
  simp only [string_append_assoc]

/-- C1: for every valid naming context (one whose VPC list is non-empty, so
that the build completes), `emit_configuration` appends exactly 8 resource
descriptors to the template accumulator, in the fixed order Queue, Alarm
Topic, Queue-Depth Alarm, IAM Role, Instance Profile, Security Group, Launch
Configuration, Auto Scaling Group. -/
theorem eight_resources_in_fixed_order (cfg : Config) (v : String)
    (l : List String) (h : cfg.vpcs = v :: l) :
    (emittedResources cfg).map Resource.kind =
      [ResourceKind.queue, ResourceKind.topic, ResourceKind.alarm,
       ResourceKind.role, ResourceKind.instanceProfile,
       ResourceKind.securityGroup, ResourceKind.launchConfiguration,
       ResourceKind.autoScalingGroup] := by
  unfold emittedResources
  rw [emit_configuration_eq cfg v l h]
  rfl

theorem eight_resources_in_fixed_order_witness :
    sampleConfig.vpcs = ["TestVpc"] ∧
    (emittedResources sampleConfig).map Resource.kind =
      [ResourceKind.queue, ResourceKind.topic, ResourceKind.alarm,
       ResourceKind.role, ResourceKind.instanceProfile,
       ResourceKind.securityGroup, ResourceKind.launchConfiguration,
       ResourceKind.autoScalingGroup] :=
  ⟨rfl, eight_resources_in_fixed_order sampleConfig "TestVpc" [] rfl⟩

/-- C2 (counterexample): at the concrete context cloud=acme, env=prod the IAM
Role resource (index 3) and the Auto Scaling Group resource (index 7) are
named `babysitter.acme.prod` under neither reading of "name": neither carries
a physical name property equal to it, nor is it their logical title. -/
theorem role_asg_name_counterexample :
    ¬ (((emittedResources sampleConfig)[3]?.bind Resource.physicalName =
          some "babysitter.acme.prod" ∨
        (emittedResources sampleConfig)[3]?.map Resource.title =
          some "babysitter.acme.prod") ∧
       ((emittedResources sampleConfig)[7]?.bind Resource.physicalName =
          some "babysitter.acme.prod" ∨
        (emittedResources sampleConfig)[7]?.map Resource.title =
          some "babysitter.acme.prod")) := by
  decide

/-- C2 (amended): for every valid naming context, the IAM Role and the Auto
Scaling Group resources produced by `emit_configuration` carry no physical
name property at all (the source computes the strings
`babysitter.{cloud}.{env}` but never attaches them); their logical titles are
the constants `BabysitterIamRole` and `BabysitterASG`. -/
theorem role_asg_carry_no_physical_name (cfg : Config) (v : String)
    (l : List String) (h : cfg.vpcs = v :: l) :
    ∃ r g, (emittedResources cfg)[3]? = some (Resource.role r) ∧
      (emittedResources cfg)[7]? = some (Resource.autoScalingGroup g) ∧
      r.title = "BabysitterIamRole" ∧
      g.title = "BabysitterASG" ∧
      Resource.physicalName (Resource.role r) = none ∧
      Resource.physicalName (Resource.autoScalingGroup g) = none := by
  unfold emittedResources
  rw [emit_configuration_eq cfg v l h]
  exact ⟨_, _, rfl, rfl, rfl, rfl, rfl, rfl⟩

theorem role_asg_carry_no_physical_name_witness :
    sampleConfig.vpcs = ["TestVpc"] ∧
    ∃ r g, (emittedResources sampleConfig)[3]? = some (Resource.role r) ∧
      (emittedResources sampleConfig)[7]? = some (Resource.autoScalingGroup g) ∧
      r.title = "BabysitterIamRole" ∧
      g.title = "BabysitterASG" ∧
      Resource.physicalName (Resource.role r) = none ∧
      Resource.physicalName (Resource.autoScalingGroup g) = none :=
  ⟨rfl, role_asg_carry_no_physical_name sampleConfig "TestVpc" [] rfl⟩

/-- C3: for every valid naming context, the Queue descriptor produced by
`emit_configuration` has name `chef-deregistration_{cloud}_{env}`, message
retention period 1209600 seconds, visibility timeout 60 seconds, maximum
message size 16384 bytes, and no dependency on any other resource. -/
theorem queue_descriptor_fields (cfg : Config) (v : String)
    (l : List String) (h : cfg.vpcs = v :: l) :
    ∃ q, (emittedResources cfg)[0]? = some (Resource.queue q) ∧
      q.queueName = "chef-deregistration_" ++ cfg.CLOUDNAME ++ "_" ++ cfg.CLOUDENV ∧
      q.messageRetentionPeriod = 1209600 ∧
      q.visibilityTimeout = 60 ∧
      q.maximumMessageSize = 16384 ∧
      Resource.dependsOnList (Resource.queue q) = [] := by
  unfold emittedResources
  rw [emit_configuration_eq cfg v l h]
  exact ⟨_, rfl, chef_queue_name cfg.CLOUDNAME cfg.CLOUDENV, rfl, rfl, rfl, rfl⟩

theorem queue_descriptor_fields_witness :
    sampleConfig.vpcs = ["TestVpc"] ∧
    ∃ q, (emittedResources sampleConfig)[0]? = some (Resource.queue q) ∧
      q.queueName = "chef-deregistration_acme_prod" ∧
      q.messageRetentionPeriod = 1209600 ∧
      q.visibilityTimeout = 60 ∧
      q.maximumMessageSize = 16384 ∧
      Resource.dependsOnList (Resource.queue q) = [] :=
  ⟨rfl, queue_descriptor_fields sampleConfig "TestVpc" [] rfl⟩

/-- C4: for every valid naming context and configured CIDR (DEFAULT_ROUTE),
the Security Group descriptor produced by `emit_configuration` has exactly
one ingress rule: protocol TCP, FromPort 22, ToPort 22, source equal to the
configured CIDR. -/
theorem security_group_single_ssh_ingress (cfg : Config) (v : String)
    (l : List String) (h : cfg.vpcs = v :: l) :
    ∃ g, (emittedResources cfg)[5]? = some (Resource.securityGroup g) ∧
      g.securityGroupIngress =
        [{ ipProtocol := "tcp", cidrIp := cfg.DEFAULT_ROUTE,
           fromPort := 22, toPort := 22 }] := by
  unfold emittedResources
  rw [emit_configuration_eq cfg v l h]
  exact ⟨_, rfl, rfl⟩

theorem security_group_single_ssh_ingress_witness :
    sampleConfig.vpcs = ["TestVpc"] ∧
    ∃ g, (emittedResources sampleConfig)[5]? = some (Resource.securityGroup g) ∧
      g.securityGroupIngress =
        [{ ipProtocol := "tcp", cidrIp := "10.0.0.0/8",
           fromPort := 22, toPort := 22 }] :=
  ⟨rfl, security_group_single_ssh_ingress sampleConfig "TestVpc" [] rfl⟩

/-- C5: for every valid naming context, the Launch Configuration's
`AssociatePublicIpAddress` field produced by `emit_configuration` is true if
and only if the private-subnet flag (USE_PRIVATE_SUBNETS) is false. -/
theorem associate_public_ip_iff_not_private (cfg : Config) (v : String)
    (l : List String) (h : cfg.vpcs = v :: l) :
    ∃ c, (emittedResources cfg)[6]? = some (Resource.launchConfiguration c) ∧
      (c.associatePublicIpAddress = true ↔ cfg.USE_PRIVATE_SUBNETS = false) := by
  unfold emittedResources
  rw [emit_configuration_eq cfg v l h]
  exact ⟨_, rfl, by simp⟩

theorem associate_public_ip_iff_not_private_witness :
    sampleConfig.vpcs = ["TestVpc"] ∧
    ∃ c, (emittedResources sampleConfig)[6]? =
        some (Resource.launchConfiguration c) ∧
      (c.associatePublicIpAddress = true ↔
        sampleConfig.USE_PRIVATE_SUBNETS = false) :=
  ⟨rfl, associate_public_ip_iff_not_private sampleConfig "TestVpc" [] rfl⟩

/-- C6: for every valid naming context, the Queue-Depth Alarm descriptor
produced by `emit_configuration` depends on the Alarm Topic, has threshold
200, period 300 seconds, 1 evaluation period, comparison operator
greater-than-threshold, and lists the Alarm Topic as its action both on alarm
and on insufficient data. -/
theorem queue_depth_alarm_fields (cfg : Config) (v : String)
    (l : List String) (h : cfg.vpcs = v :: l) :
    ∃ a t, (emittedResources cfg)[2]? = some (Resource.alarm a) ∧
      (emittedResources cfg)[1]? = some (Resource.topic t) ∧
      Resource.dependsOnList (Resource.alarm a) = [t.title] ∧
      a.threshold = "200" ∧
      a.period = "300" ∧
      a.evaluationPeriods = "1" ∧
      a.comparisonOperator = "GreaterThanThreshold" ∧
      a.alarmActions = [TVal.ref t.title] ∧
      a.insufficientDataActions = [TVal.ref t.title] := by
  unfold emittedResources
  rw [emit_configuration_eq cfg v l h]
  exact ⟨_, _, rfl, rfl, rfl, rfl, rfl, rfl, rfl, rfl, rfl⟩

theorem queue_depth_alarm_fields_witness :
    sampleConfig.vpcs = ["TestVpc"] ∧
    ∃ a t, (emittedResources sampleConfig)[2]? = some (Resource.alarm a) ∧
      (emittedResources sampleConfig)[1]? = some (Resource.topic t) ∧
      Resource.dependsOnList (Resource.alarm a) = [t.title] ∧
      a.threshold = "200" ∧
      a.period = "300" ∧
      a.evaluationPeriods = "1" ∧
      a.comparisonOperator = "GreaterThanThreshold" ∧
      a.alarmActions = [TVal.ref t.title] ∧
      a.insufficientDataActions = [TVal.ref t.title] :=
  ⟨rfl, queue_depth_alarm_fields sampleConfig "TestVpc" [] rfl⟩

/-- C7: for every valid naming context, the Queue-Depth Alarm has a single
dimension named `QueueName`, and its value — a `GetAtt` on the queue's
`QueueName` attribute — resolves, against the resources of the same build, to
exactly the name of the Queue resource, `chef-deregistration_{cloud}_{env}`. -/
theorem alarm_dimension_matches_queue_name (cfg : Config) (v : String)
    (l : List String) (h : cfg.vpcs = v :: l) :
    ∃ a q, (emittedResources cfg)[2]? = some (Resource.alarm a) ∧
      (emittedResources cfg)[0]? = some (Resource.queue q) ∧
      a.dimensions.map MetricDimension.name = ["QueueName"] ∧
      a.dimensions.map (fun d => resolveTVal (emittedResources cfg) d.value) =
        [some q.queueName] ∧
      q.queueName =
        "chef-deregistration_" ++ cfg.CLOUDNAME ++ "_" ++ cfg.CLOUDENV := by
  unfold emittedResources
  rw [emit_configuration_eq cfg v l h]
  refine ⟨_, _, rfl, rfl, rfl, ?_, chef_queue_name cfg.CLOUDNAME cfg.CLOUDENV⟩
  simp [resolveTVal, lookupQueueName]

theorem alarm_dimension_matches_queue_name_witness :
    sampleConfig.vpcs = ["TestVpc"] ∧
    ∃ a q, (emittedResources sampleConfig)[2]? = some (Resource.alarm a) ∧
      (emittedResources sampleConfig)[0]? = some (Resource.queue q) ∧
      a.dimensions.map MetricDimension.name = ["QueueName"] ∧
      a.dimensions.map
          (fun d => resolveTVal (emittedResources sampleConfig) d.value) =
        [some q.queueName] ∧
      q.queueName = "chef-deregistration_acme_prod" :=
  ⟨rfl, alarm_dimension_matches_queue_name sampleConfig "TestVpc" [] rfl⟩

/-- C8: for every valid naming context, the Auto Scaling Group descriptor
produced by `emit_configuration` has MinSize = MaxSize = DesiredCapacity = 1
and notifies the Alarm Topic on instance termination. -/
theorem asg_fixed_size_and_terminate_notification (cfg : Config) (v : String)
    (l : List String) (h : cfg.vpcs = v :: l) :
    ∃ g t, (emittedResources cfg)[7]? = some (Resource.autoScalingGroup g) ∧
      (emittedResources cfg)[1]? = some (Resource.topic t) ∧
      g.minSize = "1" ∧
      g.maxSize = "1" ∧
      g.desiredCapacity = "1" ∧
      g.notificationConfiguration =
        { topicARN := TVal.ref t.title,
          notificationTypes := ["autoscaling:EC2_INSTANCE_TERMINATE"] } := by
  unfold emittedResources
  rw [emit_configuration_eq cfg v l h]
  exact ⟨_, _, rfl, rfl, rfl, rfl, rfl, rfl⟩

theorem asg_fixed_size_and_terminate_notification_witness :
    sampleConfig.vpcs = ["TestVpc"] ∧
    ∃ g t, (emittedResources sampleConfig)[7]? =
        some (Resource.autoScalingGroup g) ∧
      (emittedResources sampleConfig)[1]? = some (Resource.topic t) ∧
      g.minSize = "1" ∧
      g.maxSize = "1" ∧
      g.desiredCapacity = "1" ∧
      g.notificationConfiguration =
        { topicARN := TVal.ref t.title,
          notificationTypes := ["autoscaling:EC2_INSTANCE_TERMINATE"] } :=
  ⟨rfl, asg_fixed_size_and_terminate_notification sampleConfig "TestVpc" [] rfl⟩

/-- C9: for every valid naming context, the Alarm Topic's `TopicName` field
equals the Queue's name string `chef-deregistration_{cloud}_{env}` — the
topic is named after the queue, not after any topic-specific name. -/
theorem topic_named_after_queue (cfg : Config) (v : String)
    (l : List String) (h : cfg.vpcs = v :: l) :
    ∃ t q, (emittedResources cfg)[1]? = some (Resource.topic t) ∧
      (emittedResources cfg)[0]? = some (Resource.queue q) ∧
      t.topicName = q.queueName ∧
      t.topicName =
        "chef-deregistration_" ++ cfg.CLOUDNAME ++ "_" ++ cfg.CLOUDENV := by
  unfold emittedResources
  rw [emit_configuration_eq cfg v l h]
  exact ⟨_, _, rfl, rfl, rfl, chef_queue_name cfg.CLOUDNAME cfg.CLOUDENV⟩

theorem topic_named_after_queue_witness :
    sampleConfig.vpcs = ["TestVpc"] ∧
    ∃ t q, (emittedResources sampleConfig)[1]? = some (Resource.topic t) ∧
      (emittedResources sampleConfig)[0]? = some (Resource.queue q) ∧
      t.topicName = q.queueName ∧
      t.topicName = "chef-deregistration_acme_prod" :=
  ⟨rfl, topic_named_after_queue sampleConfig "TestVpc" [] rfl⟩

/-- C10: for every two valid naming contexts, the region argument passed to
both IAM policy template renderings (`babysitter_policy.json.j2` and
`default_policy.json.j2`) is the constant `us-east-1`, identical across the
two runs — it does not depend on any field of the naming context, including
its region. -/
theorem policy_region_constant (cfg1 cfg2 : Config) (v1 v2 : String)
    (l1 l2 : List String) (h1 : cfg1.vpcs = v1 :: l1)
    (h2 : cfg2.vpcs = v2 :: l2) :
    rolePolicyTemplateRegions cfg1 = [some "us-east-1", some "us-east-1"] ∧
    rolePolicyTemplateRegions cfg1 = rolePolicyTemplateRegions cfg2 := by
  have e1 : rolePolicyTemplateRegions cfg1 =
      [some "us-east-1", some "us-east-1"] := by
    unfold rolePolicyTemplateRegions emittedResources
    rw [emit_configuration_eq cfg1 v1 l1 h1]
    rfl
  have e2 : rolePolicyTemplateRegions cfg2 =
      [some "us-east-1", some "us-east-1"] := by
    unfold rolePolicyTemplateRegions emittedResources
    rw [emit_configuration_eq cfg2 v2 l2 h2]
    rfl
  exact ⟨e1, e1.trans e2.symm⟩

theorem policy_region_constant_witness :
    sampleConfig.vpcs = ["TestVpc"] ∧
    sampleConfig2.vpcs = ["OtherVpc", "SecondVpc"] ∧
    sampleConfig.region = "us-west-2" ∧
    sampleConfig2.region = "eu-west-1" ∧
    (rolePolicyTemplateRegions sampleConfig =
        [some "us-east-1", some "us-east-1"] ∧
      rolePolicyTemplateRegions sampleConfig =
        rolePolicyTemplateRegions sampleConfig2) :=
  ⟨rfl, rfl, rfl, rfl,
    policy_region_constant sampleConfig sampleConfig2 "TestVpc" "OtherVpc"
      [] ["SecondVpc"] rfl rfl⟩

end Cloudformer
